import Mathlib

/-!
# Token Relation System — verification of the instruction-dispatch core

A shallow embedding of the dispatcher core of `src/tokenRelationSystem.js`
(the handlers registered for opcodes 300–305 and the default snapshot of
`register(100)`), together with theorems settling the specification's claims.

Modelling conventions:
* JavaScript strings are Lean `String`s (reasoned about through their
  character list `String.data`); the ASCII fragment of `trim`,
  `toUpperCase` and `\s` is modelled, which covers every string the
  handlers themselves build.
* JavaScript numbers are rationals (`ℚ`): every comparison and arithmetic
  operation the handlers perform on `maxLength`, ids and token counts is
  exact at the magnitudes involved, so `ℚ` is a faithful model; `NaN` has
  no counterpart, so the `isNaN(maxLength)` disjunct of the opcode-300
  guard is outside the model (none of the claims concerns it).
* The state `context.state` is `Option SystemState` (`null` before
  opcode 100 runs).
* External collaborators are explicit parameters: the file store and the
  key-value store are maps `String → Option String`, `Date.now()` is a
  natural number, `JSON.parse`/`JSON.stringify` is an abstract codec on a
  `Json` value tree (`JSON.parse` throwing is its `.error`), and the
  JavaScript engine behind `new Function('tokenA','tokenB', body)` is a
  compile oracle of type `Engine` below (outer `.error` = syntax error at
  construction, inner `.error` = the invocation threw).  `builtinEngine`
  interprets the four relation bodies that appear in the source text.
-/

namespace TokenRelationSystem

/-! ## JavaScript string primitives -/

/-- The whitespace characters recognised by the model of `trim()` and of the
regular expression `\s` (the ASCII ones: space, tab, line feed, carriage
return, vertical tab, form feed). -/
def isJsWs (c : Char) : Bool :=
  c = ' ' || c = '\t' || c = '\n' || c = '\r' || c = '\x0b' || c = '\x0c'

/-- `s.trim()` at the character-list level: strip leading and trailing
whitespace. -/
def jsTrimList (l : List Char) : List Char :=
  ((l.dropWhile isJsWs).reverse.dropWhile isJsWs).reverse

/-- `s.trim()`. -/
def jsTrim (s : String) : String := String.mk (jsTrimList s.data)

/-- One pass of `.replace(/\s+/g, '_')`: the flag records whether the previous
character belonged to a whitespace run already replaced. -/
def collapseWsAux : Bool → List Char → List Char
  | _, [] => []
  | inRun, c :: cs =>
    if isJsWs c then
      if inRun then collapseWsAux true cs
      else '_' :: collapseWsAux true cs
    else c :: collapseWsAux false cs

/-- `.replace(/\s+/g, '_')`: every maximal whitespace run becomes a single
underscore. -/
def collapseWs (l : List Char) : List Char := collapseWsAux false l

/-- The name normalisation of `register(301)`:
`(params.name || '').trim().toUpperCase().replace(/\s+/g, '_')`. -/
def normalizeName (s : String) : String :=
  String.mk (collapseWs ((jsTrimList s.data).map Char.toUpper))

/-- `[...new Set(alphabet.split(''))]` (register(300)): the distinct characters
in first-occurrence order; `seen` is the set of characters already emitted. -/
def dedupChars (seen : List Char) : List Char → List Char
  | [] => []
  | c :: cs => if c ∈ seen then dedupChars seen cs else c :: dedupChars (c :: seen) cs

/-- The deduplicated alphabet of `register(300)`. -/
def uniqueCharsOf (alphabet : String) : List Char := dedupChars [] alphabet.data

/-- `String(n)` for a natural number (decimal digits, most significant
first). -/
def natToString (n : Nat) : String :=
  if n = 0 then "0" else String.mk (((Nat.digits 10 n).reverse).map Nat.digitChar)

/-- The numeric value of a most-significant-first digit-character list. -/
def digitsToNat (l : List Char) : Nat :=
  l.foldl (fun acc c => acc * 10 + (c.toNat - 48)) 0

/-- `Number(s)` for the string shapes the system's id lookups meet: the string
is trimmed; an empty remainder is 0; a nonempty all-digit remainder is its
decimal value; anything else is NaN, modelled as `none`. -/
def jsStringToNum (s : String) : Option ℚ :=
  let t := jsTrimList s.data
  if t = [] then some 0
  else if t.all Char.isDigit then some ((digitsToNat t : ℕ) : ℚ)
  else none

/-! ## Data model -/

/-- A JavaScript id value as the handlers meet it: the number ids the system
generates, or the decimal strings the DOM `dataset` attributes deliver. -/
inductive JsId where
  | num (q : ℚ)
  | str (s : String)
deriving DecidableEq

/-- JavaScript truthiness of an id value (`params.id || Date.now()`,
`if (!id)`): 0 and the empty string are falsy. -/
def jsTruthyId : JsId → Bool
  | .num q => decide (q ≠ 0)
  | .str s => decide (s ≠ "")

/-- Loose equality `==` between two id values: number/number and
string/string compare directly; a number and a string compare after
converting the string with `Number` (NaN compares unequal). -/
def jsEqId : JsId → JsId → Bool
  | .num a, .num b => decide (a = b)
  | .str a, .str b => decide (a = b)
  | .num a, .str s =>
    match jsStringToNum s with
    | some q => decide (a = q)
    | none => false
  | .str s, .num b =>
    match jsStringToNum s with
    | some q => decide (q = b)
    | none => false

/-- `state.lexicon`. -/
structure Lexicon where
  alphabet : String
  maxLength : ℚ
deriving DecidableEq

/-- One entry of `state.relationDefinitions`. -/
structure RelationDef where
  id : JsId
  name : String
  definition : String
deriving DecidableEq

/-- `context.state`: the single mutable aggregate. -/
structure SystemState where
  lexicon : Lexicon
  generatedTokens : List String
  relationDefinitions : List RelationDef
deriving DecidableEq

/-- A value produced by invoking a user-authored relation body. -/
inductive JsVal where
  | bool (b : Bool)
  | num (q : ℚ)
  | str (s : String)
  | undef
deriving DecidableEq

/-- The uniform result object every handler returns: `success` always, the
other fields when the handler sets them (`none`/`""`/`false` model an absent
field). -/
structure Result where
  success : Bool
  message : String := ""
  warning : Bool := false
  requireConfirmation : Bool := false
  tokenCount : Option Nat := none
  result : Option JsVal := none
  tokenA : Option String := none
  tokenB : Option String := none
  relation : Option String := none
  relationOut : Option RelationDef := none
  filePath : Option String := none
deriving DecidableEq

/-- A failure result carrying only a message. -/
def failRes (msg : String) : Result := { success := false, message := msg }

/-- The `defaultState` literal of `register(100)` (lines 203–212 of the
source). -/
def defaultState : SystemState :=
  { lexicon := { alphabet := "01", maxLength := 3 }
    generatedTokens :=
      ["0", "1", "00", "01", "10", "11",
       "000", "001", "010", "011", "100", "101", "110", "111"]
    relationDefinitions :=
      [{ id := .num 1678886400000, name := "EQUALS",
         definition := "return tokenA === tokenB;" },
       { id := .num 1678886400001, name := "IS_PREFIX_OF",
         definition := "return tokenB.startsWith(tokenA);" },
       { id := .num 1678886400002, name := "IS_SUFFIX_OF",
         definition := "return tokenB.endsWith(tokenA);" },
       { id := .num 1678886400003, name := "CONTAINS",
         definition := "return tokenB.includes(tokenA);" }] }

/-! ## Opcode 300 — generate tokens -/

/-- Parameters of opcode 300 (`alphabet`, `maxLength`, `force`). -/
structure GenParams where
  alphabet : String := ""
  maxLength : ℚ := 0
  force : Bool := false

/-- The token-count loop of `register(300)`:
`for (let i = 1; i <= maxLength; i++) tokenCount += uniqueChars.length ** i`,
whose body runs for the `maxIter` integers `i` with `1 ≤ i ≤ maxLength`. -/
def countTokens (d : Nat) (maxIter : Nat) : Nat :=
  (List.range maxIter).foldl (fun acc i => acc + d ^ (i + 1)) 0

/-- The number of positive integers `i` with `(i : ℚ) ≤ maxLength`: both the
iteration count of the counting loop and the recursion depth of the
generator. -/
def maxIterOf (maxLength : ℚ) : Nat := maxLength.floor.toNat

/-- The nested generator of `register(300)`:
```
function generateTokens(prefix, length) {
  if (length > maxLength) return;
  for (let i = 0; i < uniqueChars.length; i++) {
    const newToken = prefix + uniqueChars[i];
    tokens.push(newToken);
    generateTokens(newToken, length + 1);
  }
}
```
phrased with the remaining recursion depth `fuel = ⌊maxLength⌋ + 1 - length`
in place of the increasing counter `length` (for the integer `length`,
`length > maxLength` is exactly `fuel = 0`); the top-level call
`generateTokens('', 1)` is `fuel = ⌊maxLength⌋`. -/
def generateTokensAux (uniqueChars : List Char) : Nat → String → List String
  | 0, _ => []
  | fuel + 1, pre =>
    uniqueChars.flatMap fun c =>
      let newToken := pre.push c
      newToken :: generateTokensAux uniqueChars fuel newToken

/-- The suffix lists the generator appends to its running prefix, in
generation order: `generateTokensAux uniqueChars fuel pre` is this list with
`pre` prepended to every element (`generateTokensAux_eq_map` below). -/
def genSuffixes (uniqueChars : List Char) : Nat → List (List Char)
  | 0 => []
  | fuel + 1 =>
    uniqueChars.flatMap fun c => [c] :: (genSuffixes uniqueChars fuel).map (c :: ·)

/-- The geometric sum `d + d² + … + d^fuel` in the front-recursion form the
generator's branching follows. -/
def sumPows (d : Nat) : Nat → Nat
  | 0 => 0
  | fuel + 1 => d * (1 + sumPows d fuel)

/-- The handler of `register(300)` (generate tokens). `isNaN(maxLength)` has
no counterpart in `ℚ` and is not modelled. -/
def op300 (params : GenParams) (ctx : Option SystemState) :
    Result × Option SystemState :=
  match ctx with
  | none => (failRes "System not initialized", none)
  | some st =>
    if params.alphabet = "" then
      (failRes "Alphabet cannot be empty", some st)
    else if params.maxLength < 1 then
      (failRes "Max length must be a positive integer", some st)
    else
      let uniqueChars := uniqueCharsOf params.alphabet
      let maxIter := maxIterOf params.maxLength
      let tokenCount := countTokens uniqueChars.length maxIter
      if tokenCount > 10000 ∧ params.force = false then
        ({ success := false, warning := true,
           message := "This will generate " ++ natToString tokenCount ++
             " tokens, which may slow down your system.",
           tokenCount := some tokenCount }, some st)
      else
        let tokens := generateTokensAux uniqueChars maxIter ""
        ({ success := true,
           message := "Generated " ++ natToString tokens.length ++ " tokens",
           tokenCount := some tokens.length },
         some { lexicon := { alphabet := String.mk uniqueChars,
                             maxLength := params.maxLength },
                generatedTokens := tokens,
                relationDefinitions := st.relationDefinitions })

/-! ## The JavaScript engine oracle and the built-in relation bodies -/

/-- The type of the compile oracle standing for
`new Function('tokenA', 'tokenB', body)`: the outer `.error` is a syntax
error thrown at construction time (its text is `error.message`), the inner
`Except` is an exception thrown by invoking the compiled predicate. -/
def Engine : Type := String → Except String (String → String → Except String JsVal)

/-- `tokenB.includes(tokenA)` at the character-list level: some contiguous
run of `hay` equals `needle`. -/
def jsIncludes (needle : List Char) : List Char → Bool
  | [] => decide (needle = [])
  | c :: rest =>
    decide ((c :: rest).take needle.length = needle) || jsIncludes needle rest

/-- The evaluation of the four relation bodies written in the source's
default snapshot (lines 207–210), as the JavaScript engine runs them:
`===` is string equality, `startsWith`/`endsWith`/`includes` are the
corresponding substring tests.  Bodies not in the snapshot are left
uninterpreted (a fixed `.error`); theorems over arbitrary user bodies
quantify over the oracle instead. -/
def builtinEngine : Engine := fun body =>
  if body = "return tokenA === tokenB;" then
    .ok fun a b => .ok (.bool (decide (a = b)))
  else if body = "return tokenB.startsWith(tokenA);" then
    .ok fun a b => .ok (.bool (decide (b.data.take a.data.length = a.data)))
  else if body = "return tokenB.endsWith(tokenA);" then
    .ok fun a b => .ok (.bool (decide (b.data.drop (b.data.length - a.data.length) = a.data)))
  else if body = "return tokenB.includes(tokenA);" then
    .ok fun a b => .ok (.bool (jsIncludes a.data b.data))
  else .error "body outside the modelled snapshot"

/-! ## Opcode 301 — add or edit a relation -/

/-- Parameters of opcode 301 (`id?`, `name`, `definition`); an absent `name`
or `definition` behaves as `''` (`params.name || ''`). -/
structure UpsertParams where
  id : Option JsId := none
  name : String := ""
  definition : String := ""

/-- The handler of `register(301)` (add or edit a relation).  `engine` is the
JavaScript compile oracle; `now` is `Date.now()`. -/
def op301 (engine : Engine) (now : ℕ) (params : UpsertParams)
    (ctx : Option SystemState) : Result × Option SystemState :=
  match ctx with
  | none => (failRes "System not initialized", none)
  | some st =>
    let idVal : JsId :=
      match params.id with
      | some v => if jsTruthyId v then v else .num now
      | none => .num now
    let name := normalizeName params.name
    let defn := jsTrim params.definition
    if name = "" then (failRes "Relation name cannot be empty", some st)
    else if defn = "" then (failRes "Relation definition cannot be empty", some st)
    else
    match engine defn with
    | .error e => (failRes ("Invalid definition: " ++ e), some st)
    | .ok _ =>
    if params.id.isSome then
      match st.relationDefinitions.findIdx? (fun r => jsEqId r.id idVal) with
      | none => (failRes "Relation not found", some st)
      | some relationIndex =>
        if st.relationDefinitions.any
            (fun r => r.name = name && !(jsEqId r.id idVal)) then
          (failRes "A relation with this name already exists", some st)
        else
          let newRel : RelationDef := { id := idVal, name := name, definition := defn }
          ({ success := true, message := "Relation updated", relationOut := some newRel },
           some { st with
                  relationDefinitions :=
                    st.relationDefinitions.set relationIndex newRel })
    else
      if st.relationDefinitions.any (fun r => r.name = name) then
        (failRes "A relation with this name already exists", some st)
      else
        let newRel : RelationDef := { id := idVal, name := name, definition := defn }
        ({ success := true, message := "Relation added", relationOut := some newRel },
         some { st with
                relationDefinitions := st.relationDefinitions ++ [newRel] })

/-! ## Opcode 302 — delete a relation -/

/-- Parameters of opcode 302. -/
structure DeleteParams where
  id : Option JsId := none

/-- The handler of `register(302)` (delete a relation). -/
def op302 (params : DeleteParams) (ctx : Option SystemState) :
    Result × Option SystemState :=
  match ctx with
  | none => (failRes "System not initialized", none)
  | some st =>
    match params.id with
    | none => (failRes "Relation ID is required", some st)
    | some v =>
      if jsTruthyId v = false then (failRes "Relation ID is required", some st)
      else
        match st.relationDefinitions.findIdx? (fun r => jsEqId r.id v) with
        | none => (failRes "Relation not found", some st)
        | some relationIndex =>
          let relationName :=
            ((st.relationDefinitions[relationIndex]?).map RelationDef.name).getD ""
          ({ success := true,
             message := "Relation " ++ relationName ++ " deleted" },
           some { st with
                  relationDefinitions :=
                    st.relationDefinitions.eraseIdx relationIndex })

/-! ## Opcode 303 — compare tokens -/

/-- Parameters of opcode 303. -/
structure CompareParams where
  tokenA : String := ""
  tokenB : String := ""
  relationId : Option JsId := none

/-- The handler of `register(303)` (compare two tokens under a stored
relation). -/
def op303 (engine : Engine) (params : CompareParams) (ctx : Option SystemState) :
    Result × Option SystemState :=
  match ctx with
  | none => (failRes "System not initialized", none)
  | some st =>
    if params.tokenA = "" then (failRes "Token A is required", some st)
    else if params.tokenB = "" then (failRes "Token B is required", some st)
    else
      match params.relationId with
      | none => (failRes "Relation ID is required", some st)
      | some rid =>
        if jsTruthyId rid = false then (failRes "Relation ID is required", some st)
        else
          match st.relationDefinitions.find? (fun r => jsEqId r.id rid) with
          | none => (failRes "Relation not found", some st)
          | some relation =>
            match engine relation.definition with
            | .error e => (failRes ("Error executing relation: " ++ e), some st)
            | .ok f =>
              match f params.tokenA params.tokenB with
              | .error e => (failRes ("Error executing relation: " ++ e), some st)
              | .ok v =>
                ({ success := true, result := some v,
                   tokenA := some params.tokenA, tokenB := some params.tokenB,
                   relation := some relation.name }, some st)

/-! ## The persisted snapshot: JSON values, encoding, decoding -/

/-- A JSON value tree (the image of `JSON.parse`). -/
inductive Json where
  | null
  | bool (b : Bool)
  | num (q : ℚ)
  | str (s : String)
  | arr (items : List Json)
  | obj (fields : List (String × Json))

/-- Property access `j[k]` on a parsed value: the first field with that key;
`null` stands for JavaScript's `undefined` on a missing key or a non-object
(both are falsy, which is all the handlers test). -/
def getField (j : Json) (k : String) : Json :=
  match j with
  | .obj fields =>
    match fields.find? (fun p => p.1 = k) with
    | some p => p.2
    | none => .null
  | _ => .null

/-- JavaScript truthiness of a parsed value (`!importedState.lexicon`):
`null`, `false`, `0` and `''` are falsy; every object and array is truthy. -/
def jsonTruthy : Json → Bool
  | .null => false
  | .bool b => b
  | .num q => decide (q ≠ 0)
  | .str s => decide (s ≠ "")
  | .arr _ => true
  | .obj _ => true

/-- `JSON.stringify` of an id. -/
def encodeId : JsId → Json
  | .num q => .num q
  | .str s => .str s

/-- `JSON.stringify` of one relation definition. -/
def encodeRelationDef (r : RelationDef) : Json :=
  .obj [("id", encodeId r.id), ("name", .str r.name), ("definition", .str r.definition)]

/-- The JSON value `JSON.stringify(state)` serialises: the snapshot schema of
the specification (§6). -/
def encodeState (s : SystemState) : Json :=
  .obj [("lexicon", .obj [("alphabet", .str s.lexicon.alphabet),
                          ("maxLength", .num s.lexicon.maxLength)]),
        ("generatedTokens", .arr (s.generatedTokens.map .str)),
        ("relationDefinitions", .arr (s.relationDefinitions.map encodeRelationDef))]

/-- Reading a parsed value back as a string (schema position `string`);
non-strings coerce to `""`, which is exact on schema-conforming files. -/
def asString : Json → String
  | .str s => s
  | _ => ""

/-- Reading a parsed value back as a number. -/
def asNum : Json → ℚ
  | .num q => q
  | _ => 0

/-- Reading a parsed value back as an id. -/
def asId : Json → JsId
  | .num q => .num q
  | .str s => .str s
  | _ => .num 0

/-- Reading a parsed value back as a token array. -/
def asStrList : Json → List String
  | .arr l => l.map asString
  | _ => []

/-- Reading a parsed value back as one relation definition. -/
def decodeRelationDef (j : Json) : RelationDef :=
  { id := asId (getField j "id"), name := asString (getField j "name"),
    definition := asString (getField j "definition") }

/-- Reading a parsed value back as the relation-definition array. -/
def decodeRelList : Json → List RelationDef
  | .arr l => l.map decodeRelationDef
  | _ => []

/-- The typed reading of a parsed snapshot adopted by `context.state = importedState`
(exact on files of the snapshot schema; off-schema positions coerce as the
individual readers above do). -/
def decodeState (j : Json) : SystemState :=
  { lexicon := { alphabet := asString (getField (getField j "lexicon") "alphabet"),
                 maxLength := asNum (getField (getField j "lexicon") "maxLength") },
    generatedTokens := asStrList (getField j "generatedTokens"),
    relationDefinitions := decodeRelList (getField j "relationDefinitions") }

/-! ## Opcodes 304/305 — import and export -/

/-- A key-value map standing for the file store (path → content) and for
`localStorage`. -/
def Store : Type := String → Option String

/-- Writing one key of a store. -/
def setStore (m : Store) (k v : String) : Store :=
  fun x => if x = k then some v else m x

/-- The fixed `localStorage` key of the persisted snapshot. -/
def stateKey : String := "token_system_state"

/-- Parameters of opcode 304. -/
structure ImportParams where
  path : Option String := none

/-- The handler of `register(304)` (import state from a file).  `parse` and
`stringifyCompact` stand for `JSON.parse` (`.error e` = it threw with
message `e`) and `JSON.stringify(x)`; `fs` is the file store (`fileExists`
is definedness, `readFile` the content), `ls` is `localStorage`.  Returns
the result, the new state and the new `localStorage`; the persisted
snapshot is the canonical re-encoding of the adopted state, which on files
of the snapshot schema is the parsed value itself. -/
def op304 (parse : String → Except String Json) (stringifyCompact : Json → String)
    (params : ImportParams) (fs : Store) (ls : Store) (ctx : Option SystemState) :
    Result × Option SystemState × Store :=
  match params.path with
  | none => (failRes "No file path provided", ctx, ls)
  | some p =>
    if p = "" then (failRes "No file path provided", ctx, ls)
    else
      match fs p with
      | none => (failRes "File does not exist", ctx, ls)
      | some content =>
        if content = "" then (failRes "Failed to read file", ctx, ls)
        else
          match parse content with
          | .error e => (failRes ("Import error: " ++ e), ctx, ls)
          | .ok j =>
            if jsonTruthy (getField j "lexicon") = false ∨
               jsonTruthy (getField j "generatedTokens") = false ∨
               jsonTruthy (getField j "relationDefinitions") = false then
              (failRes "Invalid token system file format", ctx, ls)
            else
              let newSt := decodeState j
              ({ success := true, message := "State imported successfully" },
               some newSt,
               setStore ls stateKey (stringifyCompact (encodeState newSt)))

/-- Parameters of opcode 305. -/
structure ExportParams where
  fileName : Option String := none
  force : Bool := false

/-- The default export file name `token-system-${Date.now()}.json`. -/
def defaultFileName (now : ℕ) : String :=
  "token-system-" ++ natToString now ++ ".json"

/-- The handler of `register(305)` (export state to a file).
`stringifyPretty` stands for `JSON.stringify(x, null, 2)`.  Returns the
result and the new file store. -/
def op305 (stringifyPretty : Json → String) (now : ℕ) (params : ExportParams)
    (fs : Store) (ctx : Option SystemState) : Result × Store :=
  match ctx with
  | none => (failRes "No state to export", fs)
  | some st =>
    let fileName :=
      match params.fileName with
      | some f => if f = "" then defaultFileName now else f
      | none => defaultFileName now
    let filePath := "/Documents/" ++ fileName
    if (fs filePath).isSome ∧ params.force = false then
      ({ success := false, message := "File already exists",
         requireConfirmation := true, filePath := some filePath }, fs)
    else
      ({ success := true, message := "Exported to " ++ filePath },
       setStore fs filePath (stringifyPretty (encodeState st)))

/-- The id-independent content of an optional state: lexicon, token sequence
and the (name, body) sequence of the relations — what two dispatches agree on
when they differ only in the representation of a stored id. -/
def stripIds (ctx : Option SystemState) :
    Option (Lexicon × List String × List (String × String)) :=
  ctx.map fun s =>
    (s.lexicon, s.generatedTokens, s.relationDefinitions.map fun r => (r.name, r.definition))

/-- A state holding a relation whose id is the number 0 (such a state can
only arise through import, which does not constrain ids): the input of the
C10 counterexample. -/
def c10State : SystemState :=
  { lexicon := { alphabet := "01", maxLength := 3 }
    generatedTokens := []
    relationDefinitions :=
      [{ id := .num 0, name := "R", definition := "return tokenA === tokenB;" }] }

/-- A state holding one relation with the numeric id 1: the input of the C10
witness. -/
def c10WitnessState : SystemState :=
  { lexicon := { alphabet := "01", maxLength := 3 }
    generatedTokens := []
    relationDefinitions :=
      [{ id := .num 1, name := "R", definition := "return tokenA === tokenB;" }] }

/-! ## Concrete collaborators for the witness theorems -/

/-- The file content the witness codec produces and parses. -/
def witnessContent : String := "SNAPSHOT"

/-- A concrete instantiation of the `JSON.parse` collaborator, inverse to
`witnessStrfy` on the one value the witness theorems use. -/
def witnessParse : String → Except String Json := fun s =>
  if s = witnessContent then .ok (encodeState defaultState)
  else .error "Unexpected token"

/-- A concrete instantiation of the `JSON.stringify` collaborator. -/
def witnessStrfy : Json → String := fun _ => witnessContent

/-- A file store holding the one file the import witness reads. -/
def witnessFs : Store := fun p =>
  if p = "/Documents/w.json" then some witnessContent else none

/-- The empty store. -/
def emptyStore : Store := fun _ => none

/-! # Theorems -/

/-! ## Shared unfolding lemmas for opcode 300 -/

/-- The success path of opcode 300: guards pass and the threshold warning is
not triggered. -/
theorem op300_success_eq (alphabet : String) (q : ℚ) (force : Bool) (st : SystemState)
    (ha : ¬(alphabet = "")) (h1 : ¬(q < 1))
    (hthr : ¬(countTokens (uniqueCharsOf alphabet).length (maxIterOf q) > 10000 ∧
        force = false)) :
    op300 ⟨alphabet, q, force⟩ (some st) =
      ({ success := true,
         message := "Generated " ++
           natToString (generateTokensAux (uniqueCharsOf alphabet) (maxIterOf q) "").length
           ++ " tokens",
         tokenCount := some (generateTokensAux (uniqueCharsOf alphabet) (maxIterOf q) "").length },
       some { lexicon := { alphabet := String.mk (uniqueCharsOf alphabet), maxLength := q },
              generatedTokens := generateTokensAux (uniqueCharsOf alphabet) (maxIterOf q) "",
              relationDefinitions := st.relationDefinitions }) := by
  simp only [op300, if_neg ha, if_neg h1, if_neg hthr]

/-- The warning path of opcode 300: guards pass, the count exceeds the
threshold and `force` is not set. -/
theorem op300_warning_eq (alphabet : String) (q : ℚ) (st : SystemState)
    (ha : ¬(alphabet = "")) (h1 : ¬(q < 1))
    (hthr : countTokens (uniqueCharsOf alphabet).length (maxIterOf q) > 10000) :
    op300 ⟨alphabet, q, false⟩ (some st) =
      ({ success := false, warning := true,
         message := "This will generate " ++
           natToString (countTokens (uniqueCharsOf alphabet).length (maxIterOf q)) ++
           " tokens, which may slow down your system.",
         tokenCount := some (countTokens (uniqueCharsOf alphabet).length (maxIterOf q)) },
       some st) := by
  simp only [op300, if_neg ha, if_neg h1]
  simp [hthr]

/-- `maxIterOf` at the non-integer value 3/2. -/
theorem maxIterOf_three_halves : maxIterOf (3/2 : ℚ) = 1 := by
  unfold maxIterOf
  rw [show Rat.floor (3/2 : ℚ) = ⌊(3/2 : ℚ)⌋ from rfl]
  rw [show ((3 : ℚ)/2) = ((3 : ℤ) : ℚ)/((2 : ℕ) : ℚ) by norm_num]
  rw [Rat.floor_intCast_div_natCast]
  decide

/-! ## Generator combinatorics -/

theorem string_push_data (s : String) (c : Char) : (s.push c).data = s.data ++ [c] := rfl

theorem generateTokensAux_eq_map (chars : List Char) (fuel : Nat) :
    ∀ pre : String,
      generateTokensAux chars fuel pre =
        (genSuffixes chars fuel).map (fun l => String.mk (pre.data ++ l)) := by
  induction fuel with
  | zero => intro pre; rfl
  | succ fuel ih =>
    intro pre
    simp only [generateTokensAux, genSuffixes, List.map_flatMap]
    congr 1
    funext c
    simp only [List.map_cons, List.map_map, ih (pre.push c)]
    have hhead : pre.push c = String.mk (pre.data ++ [c]) := rfl
    rw [hhead]
    refine congrArg (String.mk (pre.data ++ [c]) :: ·) ?_
    refine List.map_congr_left fun l _ => ?_
    show String.mk ((pre.data ++ [c]) ++ l) = String.mk (pre.data ++ (c :: l))
    simp

theorem genSuffixes_length (chars : List Char) (fuel : Nat) :
    (genSuffixes chars fuel).length = sumPows chars.length fuel := by
  induction fuel with
  | zero => rfl
  | succ fuel ih =>
    simp only [genSuffixes, List.length_flatMap]
    have hconst :
        List.map (List.length ∘ fun c => [c] :: List.map (fun x => c :: x) (genSuffixes chars fuel)) chars
          = List.map (fun _ => 1 + (genSuffixes chars fuel).length) chars := by
      refine List.map_congr_left fun c _ => ?_
      simp [Nat.add_comm]
    rw [hconst, ih]
    simp [List.map_const', List.sum_replicate, smul_eq_mul, sumPows, Nat.mul_comm]

theorem sumPows_succ_top (d : Nat) (L : Nat) :
    sumPows d (L + 1) = sumPows d L + d ^ (L + 1) := by
  induction L with
  | zero => simp [sumPows]
  | succ L ih =>
    calc sumPows d (L + 1 + 1) = d * (1 + sumPows d (L + 1)) := rfl
    _ = d * (1 + (sumPows d L + d ^ (L + 1))) := by rw [ih]
    _ = d * (1 + sumPows d L) + d * d ^ (L + 1) := by ring
    _ = sumPows d (L + 1) + d ^ (L + 1 + 1) := by
        rw [show d * (1 + sumPows d L) = sumPows d (L + 1) from rfl]
        ring

theorem countTokens_eq_sumPows (d : Nat) (L : Nat) : countTokens d L = sumPows d L := by
  induction L with
  | zero => rfl
  | succ L ih =>
    have h : countTokens d (L + 1) = countTokens d L + d ^ (L + 1) := by
      unfold countTokens
      rw [List.range_succ, List.foldl_append]
      rfl
    rw [h, ih, sumPows_succ_top]

theorem sumPows_eq_sum_Icc (d : Nat) (L : Nat) :
    sumPows d L = ∑ i ∈ Finset.Icc 1 L, d ^ i := by
  induction L with
  | zero => rfl
  | succ L ih =>
    rw [sumPows_succ_top, ih, Finset.sum_Icc_succ_top (by omega)]


theorem mem_genSuffixes (chars : List Char) (fuel : Nat) (l : List Char) :
    l ∈ genSuffixes chars fuel ↔
      l ≠ [] ∧ l.length ≤ fuel ∧ ∀ c ∈ l, c ∈ chars := by
  induction fuel generalizing l with
  | zero =>
    simp only [genSuffixes, List.not_mem_nil, false_iff]
    rintro ⟨hne, hlen, -⟩
    exact hne (List.eq_nil_of_length_eq_zero (Nat.le_zero.mp hlen))
  | succ fuel ih =>
    simp only [genSuffixes, List.mem_flatMap, List.mem_cons, List.mem_map]
    constructor
    · rintro ⟨c, hc, rfl | ⟨m, hm, rfl⟩⟩
      · exact ⟨by simp, by simp, by simp [hc]⟩
      · obtain ⟨hne, hlen, hall⟩ := (ih m).mp hm
        refine ⟨by simp, by simpa using hlen, ?_⟩
        intro x hx
        rcases List.mem_cons.mp hx with rfl | hx
        · exact hc
        · exact hall x hx
    · rintro ⟨hne, hlen, hall⟩
      match l, hne with
      | c :: m, _ =>
        refine ⟨c, hall c (by simp), ?_⟩
        rcases m with _ | ⟨d, m'⟩
        · exact Or.inl rfl
        · refine Or.inr ⟨d :: m', ?_, rfl⟩
          refine (ih _).mpr ⟨by simp, ?_, ?_⟩
          · simp only [List.length_cons] at hlen ⊢
            omega
          · intro x hx
            exact hall x (List.mem_cons_of_mem c hx)

theorem head?_of_mem_branch (chars : List Char) (fuel : Nat) (c : Char) (l : List Char)
    (h : l ∈ [c] :: (genSuffixes chars fuel).map (c :: ·)) : l.head? = some c := by
  rcases List.mem_cons.mp h with rfl | h
  · rfl
  · obtain ⟨m, -, rfl⟩ := List.mem_map.mp h
    rfl

theorem genSuffixes_nodup (chars : List Char) (fuel : Nat) (h : chars.Nodup) :
    (genSuffixes chars fuel).Nodup := by
  induction fuel with
  | zero => exact List.nodup_nil
  | succ fuel ih =>
    rw [genSuffixes, List.nodup_flatMap]
    constructor
    · intro c _
      refine List.Nodup.cons ?_ (ih.map (fun a b hab => by simpa using hab))
      intro hmem
      obtain ⟨m, hm, hemc⟩ := List.mem_map.mp hmem
      have : m = [] := by
        have := congrArg List.tail hemc
        simpa using this.symm
      rw [this] at hm
      exact ((mem_genSuffixes chars fuel []).mp hm).1 rfl
    · refine h.imp ?_
      intro a b hab
      intro l hla hlb
      have h1 := head?_of_mem_branch chars fuel a l hla
      have h2 := head?_of_mem_branch chars fuel b l hlb
      rw [h1] at h2
      exact hab (Option.some.inj h2)

theorem mem_dedupChars (l : List Char) (seen : List Char) (x : Char) :
    x ∈ dedupChars seen l ↔ x ∈ l ∧ x ∉ seen := by
  induction l generalizing seen with
  | nil => simp [dedupChars]
  | cons c cs ih =>
    by_cases hc : c ∈ seen
    · rw [dedupChars, if_pos hc, ih]
      simp only [List.mem_cons]
      constructor
      · rintro ⟨hx, hns⟩
        exact ⟨Or.inr hx, hns⟩
      · rintro ⟨rfl | hx, hns⟩
        · exact absurd hc hns
        · exact ⟨hx, hns⟩
    · rw [dedupChars, if_neg hc]
      simp only [List.mem_cons, ih (c :: seen)]
      constructor
      · rintro (rfl | ⟨hx, hns⟩)
        · exact ⟨Or.inl rfl, hc⟩
        · exact ⟨Or.inr hx, fun hs => hns (Or.inr hs)⟩
      · rintro ⟨rfl | hx, hns⟩
        · exact Or.inl rfl
        · by_cases hxc : x = c
          · exact Or.inl hxc
          · exact Or.inr ⟨hx, fun hs => hs.elim hxc hns⟩

theorem dedupChars_nodup (l : List Char) (seen : List Char) :
    (dedupChars seen l).Nodup := by
  induction l generalizing seen with
  | nil => exact List.nodup_nil
  | cons c cs ih =>
    by_cases hc : c ∈ seen
    · rw [dedupChars, if_pos hc]; exact ih seen
    · rw [dedupChars, if_neg hc]
      refine List.Nodup.cons ?_ (ih (c :: seen))
      intro hmem
      exact ((mem_dedupChars cs (c :: seen) c).mp hmem).2 (List.mem_cons_self c seen)

theorem dedupChars_sublist (l : List Char) (seen : List Char) :
    (dedupChars seen l).Sublist l := by
  induction l generalizing seen with
  | nil => exact List.Sublist.refl []
  | cons c cs ih =>
    by_cases hc : c ∈ seen
    · rw [dedupChars, if_pos hc]; exact (ih seen).cons c
    · rw [dedupChars, if_neg hc]; exact (ih (c :: seen)).cons₂ c

theorem mem_uniqueCharsOf (alphabet : String) (x : Char) :
    x ∈ uniqueCharsOf alphabet ↔ x ∈ alphabet.data := by
  rw [uniqueCharsOf, mem_dedupChars]
  simp

theorem uniqueCharsOf_nodup (alphabet : String) : (uniqueCharsOf alphabet).Nodup :=
  dedupChars_nodup _ _

theorem maxIterOf_natCast (L : ℕ) : maxIterOf (L : ℚ) = L := by
  unfold maxIterOf
  rw [show Rat.floor ((L : ℕ) : ℚ) = ⌊((L : ℕ) : ℚ)⌋ from rfl, Int.floor_natCast]
  exact Int.toNat_natCast L


theorem findIdx?_lt_length_aux {α : Type} (p : α → Bool) :
    ∀ (l : List α) (i0 j : Nat), List.findIdx? p l i0 = some j → i0 ≤ j ∧ j < i0 + l.length
  | [], i0, j, h => by simp [List.findIdx?] at h
  | x :: xs, i0, j, h => by
    rw [List.findIdx?_cons] at h
    by_cases hx : p x = true
    · rw [if_pos hx] at h
      obtain rfl := Option.some.inj h
      simp
    · rw [if_neg hx] at h
      obtain ⟨h1, h2⟩ := findIdx?_lt_length_aux p xs (i0 + 1) j h
      constructor
      · omega
      · simp only [List.length_cons]
        omega

theorem findIdx?_lt_length {α : Type} (p : α → Bool) (l : List α) (i : Nat)
    (h : l.findIdx? p = some i) : i < l.length := by
  have := findIdx?_lt_length_aux p l 0 i h
  omega

/-! ## Claim theorems -/

/-- C1: the claim (and the source's own `defaultState` snapshot) state that
opcode 300 on alphabet `"01"`, maxLength 3 yields the length-ascending
sequence `["0","1","00","01","10","11","000",…]`.  The handler instead pushes
every token before recursing on it, so the sequence it stores is the
depth-first pre-order `["0","00","000","001","01","010","011","1",…]`: the
dispatch succeeds, the stored sequence is the pre-order one, and it differs
from the snapshot sequence the claim lists. -/
theorem c1_generate_depth_first_not_length_ordered :
    (op300 { alphabet := "01", maxLength := 3 } (some defaultState)).1.success = true ∧
    ((op300 { alphabet := "01", maxLength := 3 } (some defaultState)).2.map
        SystemState.generatedTokens) =
      some ["0", "00", "000", "001", "01", "010", "011",
            "1", "10", "100", "101", "11", "110", "111"] ∧
    ((op300 { alphabet := "01", maxLength := 3 } (some defaultState)).2.map
        SystemState.generatedTokens) ≠ some defaultState.generatedTokens := by
  refine ⟨by decide, by decide, by decide⟩

/-- C6: opcode 303 on the default snapshot's built-in relations: EQUALS on
("101","101") is true, EQUALS on ("101","110") is false, IS_PREFIX_OF on
("10","101") is true, CONTAINS on ("0","101") is true; each successful result
carries `tokenA`, `tokenB` and the relation's name. -/
theorem c6_compare_builtin_relations :
    (op303 builtinEngine
      { tokenA := "101", tokenB := "101", relationId := some (.num 1678886400000) }
      (some defaultState)).1 =
      { success := true, result := some (.bool true), tokenA := some "101",
                  tokenB := some "101", relation := some "EQUALS" } ∧
    (op303 builtinEngine
      { tokenA := "101", tokenB := "110", relationId := some (.num 1678886400000) }
      (some defaultState)).1 =
      { success := true, result := some (.bool false), tokenA := some "101",
                  tokenB := some "110", relation := some "EQUALS" } ∧
    (op303 builtinEngine
      { tokenA := "10", tokenB := "101", relationId := some (.num 1678886400001) }
      (some defaultState)).1 =
      { success := true, result := some (.bool true), tokenA := some "10",
                  tokenB := some "101", relation := some "IS_PREFIX_OF" } ∧
    (op303 builtinEngine
      { tokenA := "0", tokenB := "101", relationId := some (.num 1678886400003) }
      (some defaultState)).1 =
      { success := true, result := some (.bool true), tokenA := some "0",
                  tokenB := some "101", relation := some "CONTAINS" } := by
  refine ⟨by decide, by decide, by decide, by decide⟩

/-- C8 (counterexample): the claim says every `maxLength` that is not a
positive integer is rejected.  At `maxLength = 3/2` — not an integer — the
guard `isNaN(maxLength) || maxLength < 1` passes, the dispatch succeeds, the
length-1 tokens are generated, and the non-integer value is stored in
`lexicon.maxLength`. -/
theorem c8_counterexample_three_halves_accepted :
    (op300 { alphabet := "01", maxLength := 3/2 } (some defaultState)).1.success = true ∧
    ((op300 { alphabet := "01", maxLength := 3/2 } (some defaultState)).2.map
        SystemState.generatedTokens) = some ["0", "1"] ∧
    ((op300 { alphabet := "01", maxLength := 3/2 } (some defaultState)).2.map
        (fun s => s.lexicon.maxLength)) = some (3/2 : ℚ) ∧
    ¬ ∃ n : ℕ, (3/2 : ℚ) = n := by
  have key := op300_success_eq "01" (3/2 : ℚ) false defaultState (by decide) (by norm_num)
    (by rw [maxIterOf_three_halves]; decide)
  rw [maxIterOf_three_halves] at key
  refine ⟨?_, ?_, ?_, ?_⟩
  · rw [show ({ alphabet := "01", maxLength := 3/2 } : GenParams) =
        ⟨"01", 3/2, false⟩ from rfl, key]
  · rw [show ({ alphabet := "01", maxLength := 3/2 } : GenParams) =
        ⟨"01", 3/2, false⟩ from rfl, key]
    decide
  · rw [show ({ alphabet := "01", maxLength := 3/2 } : GenParams) =
        ⟨"01", 3/2, false⟩ from rfl, key]
    rfl
  · rintro ⟨n, hn⟩
    have h2 : (2 : ℚ) * n = 3 := by rw [← hn]; norm_num
    have h3 : (2 : ℤ) * n = 3 := by exact_mod_cast h2
    omega

/-- C8 (amended): opcode 300 rejects `maxLength` exactly when it is NaN or
below 1; in particular every `maxLength < 1` fails with `success: false` and
leaves the state unchanged (non-integer values ≥ 1 are accepted, see the
counterexample). -/
theorem c8_amended_reject_below_one (params : GenParams) (st : SystemState)
    (hm : params.maxLength < 1) :
    (op300 params (some st)).1.success = false ∧ (op300 params (some st)).2 = some st := by
  by_cases ha : params.alphabet = ""
  · simp [op300, ha, failRes]
  · simp [op300, ha, hm, failRes]

/-- C8 (witness): the amended theorem at `maxLength = 0`. -/
theorem c8_amended_reject_below_one_witness :
    (op300 { alphabet := "01", maxLength := 0 } (some defaultState)).1.success = false ∧
    (op300 { alphabet := "01", maxLength := 0 } (some defaultState)).2 = some defaultState :=
  c8_amended_reject_below_one { alphabet := "01", maxLength := 0 } defaultState (by decide)

/-- C2: for every non-empty alphabet and integer maxLength L ≥ 1 that does
not trigger the threshold warning (count within threshold, or `force` set),
opcode 300 succeeds and replaces the token sequence with a sequence of
exactly Σ_{i=1..L} d^i tokens, d the number of distinct alphabet characters
(first-occurrence order preserved: the deduplicated alphabet is a nodup
sublist of the original with the same members), each token of length
between 1 and L and composed only of alphabet characters, with no
duplicates. -/
theorem c2_generated_tokens_complete (st : SystemState) (alphabet : String)
    (L : ℕ) (force : Bool) (ha : alphabet ≠ "") (hL : 1 ≤ L)
    (hthr : countTokens (uniqueCharsOf alphabet).length L ≤ 10000 ∨ force = true) :
    (op300 ⟨alphabet, (L : ℚ), force⟩ (some st)).1.success = true ∧
    ∃ tokens : List String,
      (op300 ⟨alphabet, (L : ℚ), force⟩ (some st)).2 =
        some { lexicon := { alphabet := String.mk (uniqueCharsOf alphabet),
                            maxLength := (L : ℚ) },
               generatedTokens := tokens,
               relationDefinitions := st.relationDefinitions } ∧
      tokens.length = ∑ i ∈ Finset.Icc 1 L, (uniqueCharsOf alphabet).length ^ i ∧
      tokens.Nodup ∧
      (∀ t ∈ tokens, 1 ≤ t.length ∧ t.length ≤ L ∧ ∀ c ∈ t.data, c ∈ alphabet.data) ∧
      (uniqueCharsOf alphabet).Nodup ∧
      (uniqueCharsOf alphabet).Sublist alphabet.data ∧
      (∀ c : Char, c ∈ uniqueCharsOf alphabet ↔ c ∈ alphabet.data) := by
  have h1 : ¬((L : ℚ) < 1) := by
    rw [not_lt]
    exact_mod_cast hL
  have hthr' : ¬(countTokens (uniqueCharsOf alphabet).length (maxIterOf (L : ℚ)) > 10000 ∧
      force = false) := by
    rw [maxIterOf_natCast]
    rcases hthr with h | h
    · rintro ⟨hgt, -⟩
      omega
    · rintro ⟨-, hf⟩
      rw [h] at hf
      cases hf
  have key := op300_success_eq alphabet (L : ℚ) force st ha h1 hthr'
  rw [maxIterOf_natCast] at key
  rw [key]
  refine ⟨rfl, generateTokensAux (uniqueCharsOf alphabet) L "", rfl, ?_, ?_, ?_, ?_, ?_, ?_⟩
  · rw [generateTokensAux_eq_map, List.length_map, genSuffixes_length,
      sumPows_eq_sum_Icc]
  · rw [generateTokensAux_eq_map]
    refine (genSuffixes_nodup _ _ (uniqueCharsOf_nodup alphabet)).map ?_
    intro a b hab
    have := congrArg String.data hab
    simpa using this
  · intro t ht
    rw [generateTokensAux_eq_map] at ht
    obtain ⟨l, hl, rfl⟩ := List.mem_map.mp ht
    obtain ⟨hne, hlen, hall⟩ := (mem_genSuffixes _ _ _).mp hl
    refine ⟨?_, ?_, ?_⟩
    · show 1 ≤ (String.mk (("" : String).data ++ l)).data.length
      simp only [List.nil_append]
      rcases l with _ | _
      · exact absurd rfl hne
      · simp
    · show (String.mk (("" : String).data ++ l)).data.length ≤ L
      simpa using hlen
    · intro c hc
      simp only at hc
      exact (mem_uniqueCharsOf alphabet c).mp (hall c (by simpa using hc))
  · exact uniqueCharsOf_nodup alphabet
  · exact dedupChars_sublist _ _
  · exact mem_uniqueCharsOf alphabet

/-- C3: when the computed count exceeds 10000 and `force` is not set,
opcode 300 returns `success: false, warning: true` carrying the computed
count and leaves the state (lexicon and token sequence) unchanged;
re-dispatching the same parameters with `force: true` performs the mutation
and returns success. -/
theorem c3_threshold_warning_then_force (st : SystemState) (alphabet : String) (q : ℚ)
    (ha : alphabet ≠ "") (h1 : ¬(q < 1))
    (hcount : countTokens (uniqueCharsOf alphabet).length (maxIterOf q) > 10000) :
    op300 ⟨alphabet, q, false⟩ (some st) =
      ({ success := false, warning := true,
         message := "This will generate " ++
           natToString (countTokens (uniqueCharsOf alphabet).length (maxIterOf q)) ++
           " tokens, which may slow down your system.",
         tokenCount := some (countTokens (uniqueCharsOf alphabet).length (maxIterOf q)) },
       some st) ∧
    (op300 ⟨alphabet, q, true⟩ (some st)).1.success = true ∧
    (op300 ⟨alphabet, q, true⟩ (some st)).2 =
      some { lexicon := { alphabet := String.mk (uniqueCharsOf alphabet), maxLength := q },
             generatedTokens := generateTokensAux (uniqueCharsOf alphabet) (maxIterOf q) "",
             relationDefinitions := st.relationDefinitions } := by
  have key := op300_success_eq alphabet q true st ha h1 (by simp)
  exact ⟨op300_warning_eq alphabet q st ha h1 hcount, by rw [key], by rw [key]⟩

/-- C2 (witness): the theorem applied at alphabet "01", maxLength 3. -/
theorem c2_generated_tokens_complete_witness :
    (op300 ⟨"01", ((3 : ℕ) : ℚ), false⟩ (some defaultState)).1.success = true :=
  (c2_generated_tokens_complete defaultState "01" 3 false (by decide) (by decide)
    (Or.inl (by decide))).1

/-- C3 (witness): the theorem applied at alphabet "0123456789", maxLength 4
(count 11110 > 10000). -/
theorem c3_threshold_warning_then_force_witness :
    (op300 ⟨"0123456789", ((4 : ℕ) : ℚ), false⟩ (some defaultState)).1.warning = true ∧
    (op300 ⟨"0123456789", ((4 : ℕ) : ℚ), true⟩ (some defaultState)).1.success = true := by
  have h := c3_threshold_warning_then_force defaultState "0123456789" ((4 : ℕ) : ℚ)
    (by decide) (by decide) (by rw [maxIterOf_natCast]; decide)
  exact ⟨by rw [h.1], h.2.1⟩

/-- C5: upserting via opcode 301 with any name whose normalised form (trim,
upper-case, whitespace runs to one underscore) equals the name of another
stored definition fails with the duplicate-name conflict, whatever casing or
whitespace variant is supplied, on both the add path (no id) and the edit
path (id of a different stored definition, loose-equality lookup
succeeding). -/
theorem c5_duplicate_normalized_name_rejected (st : SystemState) (engine : Engine)
    (now : ℕ) (d : RelationDef) (hd : d ∈ st.relationDefinitions)
    (v defnStr : String)
    (hnorm : normalizeName v = d.name)
    (hname : d.name ≠ "")
    (hdefn : jsTrim defnStr ≠ "")
    (hcompile : ∃ f, engine (jsTrim defnStr) = Except.ok f)
    (pid : Option JsId)
    (hpath : pid = none ∨
      ∃ w, pid = some w ∧ jsTruthyId w = true ∧
        (st.relationDefinitions.findIdx? (fun r => jsEqId r.id w)).isSome = true ∧
        jsEqId d.id w = false) :
    op301 engine now { id := pid, name := v, definition := defnStr } (some st) =
      (failRes "A relation with this name already exists", some st) := by
  obtain ⟨f, hf⟩ := hcompile
  rcases hpath with rfl | ⟨w, rfl, hw, hfindsome, hdne⟩
  · -- add path
    simp only [op301, hnorm, if_neg hname, if_neg hdefn, hf, Option.isSome_none]
    have hany : st.relationDefinitions.any (fun r => r.name = d.name) = true := by
      rw [List.any_eq_true]
      exact ⟨d, hd, by simp⟩
    simp [hany]
  · -- edit path
    obtain ⟨i, hi⟩ := Option.isSome_iff_exists.mp hfindsome
    simp only [op301, hnorm, if_pos hw, if_neg hname, if_neg hdefn, hf,
      Option.isSome_some, if_true, hi]
    have hany : st.relationDefinitions.any
        (fun r => r.name = d.name && !(jsEqId r.id w)) = true := by
      rw [List.any_eq_true]
      exact ⟨d, hd, by simp [hdne]⟩
    simp [hany]

/-- C9: on the edit path of opcode 301 (id supplied and found, no name
conflict), the existing entry is replaced in place: the stored sequence
becomes `set i newRel`, its length is unchanged, position `i` (which is in
range) holds the new entry, and every other position is unchanged. -/
theorem c9_edit_replaces_in_place (st : SystemState) (engine : Engine) (now : ℕ)
    (w : JsId) (nm defnStr : String) (i : Nat)
    (hw : jsTruthyId w = true)
    (hname : normalizeName nm ≠ "")
    (hdefn : jsTrim defnStr ≠ "")
    (hcompile : ∃ f, engine (jsTrim defnStr) = Except.ok f)
    (hfind : st.relationDefinitions.findIdx? (fun r => jsEqId r.id w) = some i)
    (hnodup : ∀ r ∈ st.relationDefinitions,
        ¬(r.name = normalizeName nm ∧ jsEqId r.id w = false)) :
    op301 engine now { id := some w, name := nm, definition := defnStr } (some st) =
      ({ success := true, message := "Relation updated",
         relationOut := some ⟨w, normalizeName nm, jsTrim defnStr⟩ },
       some { st with relationDefinitions :=
          st.relationDefinitions.set i ⟨w, normalizeName nm, jsTrim defnStr⟩ }) ∧
    (st.relationDefinitions.set i ⟨w, normalizeName nm, jsTrim defnStr⟩).length =
      st.relationDefinitions.length ∧
    i < st.relationDefinitions.length ∧
    (st.relationDefinitions.set i ⟨w, normalizeName nm, jsTrim defnStr⟩)[i]? =
      some ⟨w, normalizeName nm, jsTrim defnStr⟩ ∧
    ∀ j, j ≠ i →
      (st.relationDefinitions.set i ⟨w, normalizeName nm, jsTrim defnStr⟩)[j]? =
        st.relationDefinitions[j]? := by
  obtain ⟨f, hf⟩ := hcompile
  have hlt : i < st.relationDefinitions.length := findIdx?_lt_length _ _ _ hfind
  have hany : st.relationDefinitions.any
      (fun r => r.name = normalizeName nm && !(jsEqId r.id w)) = false := by
    rw [List.any_eq_false]
    intro r hr
    intro hcontra
    simp only [Bool.and_eq_true, decide_eq_true_eq, Bool.not_eq_true'] at hcontra
    exact hnodup r hr hcontra
  refine ⟨?_, by rw [List.length_set], hlt, ?_, ?_⟩
  · simp only [op301, if_pos hw, if_neg hname, if_neg hdefn, hf,
      Option.isSome_some, if_true, hfind, hany, Bool.false_eq_true, if_false]
  · rw [List.getElem?_set, if_pos rfl, if_pos hlt]
  · intro j hj
    rw [List.getElem?_set, if_neg (fun h => hj h.symm)]

/-- C5 (witness): adding "  equals  " (a casing/whitespace variant of the
stored EQUALS) to the default snapshot is rejected. -/
theorem c5_duplicate_normalized_name_rejected_witness :
    op301 builtinEngine 0
        { id := none, name := "  equals  ", definition := "return tokenA === tokenB;" }
        (some defaultState) =
      (failRes "A relation with this name already exists", some defaultState) :=
  c5_duplicate_normalized_name_rejected defaultState builtinEngine 0
    ⟨.num 1678886400000, "EQUALS", "return tokenA === tokenB;"⟩ (by decide)
    "  equals  " "return tokenA === tokenB;" (by decide) (by decide) (by decide)
    ⟨_, rfl⟩ none (Or.inl rfl)

/-- C9 (witness): editing the default snapshot's EQUALS (index 0) by id
succeeds. -/
theorem c9_edit_replaces_in_place_witness :
    (op301 builtinEngine 0
        { id := some (.num 1678886400000), name := "EQ",
          definition := "return tokenA === tokenB;" }
        (some defaultState)).1.success = true := by
  rw [(c9_edit_replaces_in_place defaultState builtinEngine 0 (.num 1678886400000)
      "EQ" "return tokenA === tokenB;" 0 (by decide) (by decide) (by decide) ⟨_, rfl⟩
      (by decide) (by decide)).1]

/-- C4: opcode 304 fails — leaving the state and the key-value store
unchanged — when the path is missing or empty, the file does not exist, the
content is unreadable (empty), the content does not parse, or any of the
three top-level fields `lexicon`, `generatedTokens`, `relationDefinitions`
is missing (falsy); when all three fields are present the parsed object
wholesale replaces the state and the snapshot is immediately persisted to
the key-value collaborator. -/
theorem c4_import_validates_then_replaces (parse : String → Except String Json)
    (strfy : Json → String) (params : ImportParams) (fs ls : Store)
    (ctx : Option SystemState) :
    ((params.path = none ∨ params.path = some "") →
      op304 parse strfy params fs ls ctx = (failRes "No file path provided", ctx, ls)) ∧
    (∀ p, params.path = some p → p ≠ "" → fs p = none →
      op304 parse strfy params fs ls ctx = (failRes "File does not exist", ctx, ls)) ∧
    (∀ p, params.path = some p → p ≠ "" → fs p = some "" →
      op304 parse strfy params fs ls ctx = (failRes "Failed to read file", ctx, ls)) ∧
    (∀ p content e, params.path = some p → p ≠ "" → fs p = some content → content ≠ "" →
      parse content = Except.error e →
      op304 parse strfy params fs ls ctx =
        (failRes ("Import error: " ++ e), ctx, ls)) ∧
    (∀ p content j, params.path = some p → p ≠ "" → fs p = some content → content ≠ "" →
      parse content = Except.ok j →
      (jsonTruthy (getField j "lexicon") = false ∨
       jsonTruthy (getField j "generatedTokens") = false ∨
       jsonTruthy (getField j "relationDefinitions") = false) →
      op304 parse strfy params fs ls ctx =
        (failRes "Invalid token system file format", ctx, ls)) ∧
    (∀ p content j, params.path = some p → p ≠ "" → fs p = some content → content ≠ "" →
      parse content = Except.ok j →
      jsonTruthy (getField j "lexicon") = true →
      jsonTruthy (getField j "generatedTokens") = true →
      jsonTruthy (getField j "relationDefinitions") = true →
      op304 parse strfy params fs ls ctx =
        ({ success := true, message := "State imported successfully" },
         some (decodeState j),
         setStore ls stateKey (strfy (encodeState (decodeState j))))) := by
  refine ⟨?_, ?_, ?_, ?_, ?_, ?_⟩
  · rintro (hp | hp)
    · simp only [op304, hp]
    · simp only [op304, hp]
      rfl
  · intro p hp hne hfs
    simp only [op304, hp, if_neg hne, hfs]
  · intro p hp hne hfs
    simp only [op304, hp, if_neg hne, hfs]
    simp
  · intro p content e hp hne hfs hcne hparse
    simp only [op304, hp, if_neg hne, hfs, if_neg hcne, hparse]
  · intro p content j hp hne hfs hcne hparse htr
    simp only [op304, hp, if_neg hne, hfs, if_neg hcne, hparse]
    rw [if_pos]
    rcases htr with h | h | h <;> simp [h]
  · intro p content j hp hne hfs hcne hparse ht1 ht2 ht3
    simp only [op304, hp, if_neg hne, hfs, if_neg hcne, hparse, ht1, ht2, ht3]
    simp


theorem asId_encodeId (i : JsId) : asId (encodeId i) = i := by cases i <;> rfl

theorem decodeRelationDef_encodeRelationDef (r : RelationDef) :
    decodeRelationDef (encodeRelationDef r) = r := by
  have h : decodeRelationDef (encodeRelationDef r) =
      { id := asId (encodeId r.id), name := r.name, definition := r.definition } := rfl
  rw [h, asId_encodeId]

theorem decodeState_encodeState (s : SystemState) : decodeState (encodeState s) = s := by
  have h : decodeState (encodeState s) =
      { lexicon := { alphabet := s.lexicon.alphabet, maxLength := s.lexicon.maxLength },
        generatedTokens := (s.generatedTokens.map Json.str).map asString,
        relationDefinitions :=
          (s.relationDefinitions.map encodeRelationDef).map decodeRelationDef } := rfl
  rw [h]
  cases s with
  | mk lex toks defs =>
    congr 1
    · calc (toks.map Json.str).map asString
          = toks.map (asString ∘ Json.str) := by rw [List.map_map]
        _ = toks.map id := List.map_congr_left (fun x _ => rfl)
        _ = toks := List.map_id _
    · calc (defs.map encodeRelationDef).map decodeRelationDef
          = defs.map (decodeRelationDef ∘ encodeRelationDef) := by rw [List.map_map]
        _ = defs.map id := List.map_congr_left
            (fun r _ => decodeRelationDef_encodeRelationDef r)
        _ = defs := List.map_id _

theorem jsonTruthy_encodeState_lexicon (s : SystemState) :
    jsonTruthy (getField (encodeState s) "lexicon") = true := rfl

theorem jsonTruthy_encodeState_tokens (s : SystemState) :
    jsonTruthy (getField (encodeState s) "generatedTokens") = true := rfl

theorem jsonTruthy_encodeState_relations (s : SystemState) :
    jsonTruthy (getField (encodeState s) "relationDefinitions") = true := rfl

theorem docPath_ne_empty (f : String) : ("/Documents/" ++ f) ≠ "" := by
  intro h
  have h2 := congrArg String.data h
  rw [show ("/Documents/" ++ f).data = "/Documents/".data ++ f.data from rfl] at h2
  simp at h2

theorem setStore_same (m : Store) (k v : String) : setStore m k v k = some v := by
  simp [setStore]

/-- C7: for every SystemState, exporting with opcode 305 (fresh path or
`force`) writes the serialised snapshot, and importing that file with
opcode 304 succeeds and reconstructs exactly the original state — same
lexicon, same token sequence, same relation definitions in order — under
the platform codec's round-trip fidelity (`parse ∘ stringify = some`),
stated as a hypothesis on the abstract `JSON` codec collaborator. -/
theorem c7_export_then_import_round_trip (st : SystemState)
    (parse : String → Except String Json) (strfyP strfyC : Json → String)
    (fs ls : Store) (now : ℕ) (f : String) (force : Bool)
    (ctx2 : Option SystemState)
    (hf : f ≠ "")
    (hnoclash : fs ("/Documents/" ++ f) = none ∨ force = true)
    (hparse : parse (strfyP (encodeState st)) = Except.ok (encodeState st))
    (hnonempty : strfyP (encodeState st) ≠ "") :
    op305 strfyP now { fileName := some f, force := force } fs (some st) =
      ({ success := true, message := "Exported to " ++ ("/Documents/" ++ f) },
       setStore fs ("/Documents/" ++ f) (strfyP (encodeState st))) ∧
    op304 parse strfyC { path := some ("/Documents/" ++ f) }
        (setStore fs ("/Documents/" ++ f) (strfyP (encodeState st))) ls ctx2 =
      ({ success := true, message := "State imported successfully" },
       some st,
       setStore ls stateKey (strfyC (encodeState st))) := by
  have hcond : ¬((fs ("/Documents/" ++ f)).isSome = true ∧ force = false) := by
    rcases hnoclash with h | h
    · rintro ⟨h1, -⟩
      rw [h] at h1
      simp at h1
    · rintro ⟨-, h2⟩
      rw [h] at h2
      cases h2
  constructor
  · simp only [op305, if_neg hf, if_neg hcond]
  · simp only [op304, if_neg (docPath_ne_empty f), setStore_same, if_neg hnonempty,
      hparse, jsonTruthy_encodeState_lexicon, jsonTruthy_encodeState_tokens,
      jsonTruthy_encodeState_relations, decodeState_encodeState]
    simp

/-- C4 (witness): importing a well-formed snapshot file succeeds and
replaces the state. -/
theorem c4_import_validates_then_replaces_witness :
    op304 witnessParse witnessStrfy { path := some "/Documents/w.json" } witnessFs
        emptyStore none =
      ({ success := true, message := "State imported successfully" },
       some (decodeState (encodeState defaultState)),
       setStore emptyStore stateKey
         (witnessStrfy (encodeState (decodeState (encodeState defaultState))))) :=
  (c4_import_validates_then_replaces witnessParse witnessStrfy
      { path := some "/Documents/w.json" } witnessFs emptyStore none).2.2.2.2.2
    "/Documents/w.json" witnessContent (encodeState defaultState) rfl (by decide) rfl
    (by decide) rfl rfl rfl rfl

/-- C7 (witness): the round trip at the default snapshot through the
concrete witness codec. -/
theorem c7_export_then_import_round_trip_witness :
    op305 witnessStrfy 0 { fileName := some "w.json" } emptyStore (some defaultState) =
      ({ success := true, message := "Exported to " ++ ("/Documents/" ++ "w.json") },
       setStore emptyStore ("/Documents/" ++ "w.json")
         (witnessStrfy (encodeState defaultState))) ∧
    op304 witnessParse witnessStrfy { path := some ("/Documents/" ++ "w.json") }
        (setStore emptyStore ("/Documents/" ++ "w.json")
          (witnessStrfy (encodeState defaultState)))
        emptyStore none =
      ({ success := true, message := "State imported successfully" },
       some defaultState,
       setStore emptyStore stateKey (witnessStrfy (encodeState defaultState))) :=
  c7_export_then_import_round_trip defaultState witnessParse witnessStrfy witnessStrfy
    emptyStore emptyStore 0 "w.json" false none (by decide) (Or.inl rfl) rfl (by decide)

/-! ## Decimal strings and loose id equality -/

theorem isJsWs_eq_false_of_isDigit (c : Char) (h : c.isDigit = true) :
    isJsWs c = false := by
  simp only [Char.isDigit, Bool.and_eq_true, decide_eq_true_eq] at h
  obtain ⟨h1, h2⟩ := h
  simp only [isJsWs, Bool.or_eq_false_iff, decide_eq_false_iff_not]
  refine ⟨⟨⟨⟨⟨?_, ?_⟩, ?_⟩, ?_⟩, ?_⟩, ?_⟩ <;>
    · rintro rfl
      revert h1 h2
      decide

theorem digitVal_digitChar (d : ℕ) (hd : d < 10) :
    (Nat.digitChar d).toNat - 48 = d := by
  interval_cases d <;> rfl

theorem isDigit_digitChar (d : ℕ) (hd : d < 10) :
    (Nat.digitChar d).isDigit = true := by
  interval_cases d <;> rfl

theorem digitsToNat_reverse_map (ds : List ℕ) (h : ∀ d ∈ ds, d < 10) :
    digitsToNat ((ds.reverse).map Nat.digitChar) = Nat.ofDigits 10 ds := by
  induction ds with
  | nil => rfl
  | cons d ds ih =>
    rw [List.reverse_cons, List.map_append]
    unfold digitsToNat
    rw [List.foldl_append]
    have hih := ih (fun x hx => h x (List.mem_cons_of_mem d hx))
    unfold digitsToNat at hih
    rw [hih, Nat.ofDigits_cons]
    simp only [List.map_cons, List.map_nil, List.foldl_cons, List.foldl_nil]
    rw [digitVal_digitChar d (h d (List.mem_cons_self d ds))]
    ring

theorem natToString_data_digits (n : ℕ) (hn : 0 < n) :
    (natToString n).data = ((Nat.digits 10 n).reverse).map Nat.digitChar := by
  unfold natToString
  rw [if_neg (Nat.pos_iff_ne_zero.mp hn)]

theorem natToString_all_digits (n : ℕ) :
    ∀ c ∈ (natToString n).data, c.isDigit = true := by
  rcases Nat.eq_zero_or_pos n with rfl | hn
  · intro c hc
    rw [show (natToString 0).data = ['0'] from rfl] at hc
    obtain rfl := List.mem_singleton.mp hc
    rfl
  · rw [natToString_data_digits n hn]
    intro c hc
    obtain ⟨d, hd, rfl⟩ := List.mem_map.mp hc
    exact isDigit_digitChar d (Nat.digits_lt_base (by omega) (List.mem_reverse.mp hd))

theorem natToString_ne_empty (n : ℕ) : natToString n ≠ "" := by
  rcases Nat.eq_zero_or_pos n with rfl | hn
  · decide
  · intro h
    have h2 := congrArg String.data h
    rw [natToString_data_digits n hn] at h2
    simp only [show ("" : String).data = [] from rfl, List.map_eq_nil_iff,
      List.reverse_eq_nil_iff] at h2
    exact Nat.digits_ne_nil_iff_ne_zero.mpr (Nat.pos_iff_ne_zero.mp hn) h2

theorem jsTrimList_eq_self_of_digits (l : List Char)
    (h : ∀ c ∈ l, c.isDigit = true) : jsTrimList l = l := by
  have hdrop : ∀ (m : List Char), (∀ c ∈ m, c.isDigit = true) →
      m.dropWhile isJsWs = m := by
    intro m hm
    cases m with
    | nil => rfl
    | cons c cs =>
      rw [List.dropWhile_cons,
        if_neg (by rw [isJsWs_eq_false_of_isDigit c (hm c (List.mem_cons_self c cs))]; simp)]
  unfold jsTrimList
  rw [hdrop l h, hdrop l.reverse (fun c hc => h c (List.mem_reverse.mp hc)),
    List.reverse_reverse]

theorem jsStringToNum_natToString (n : ℕ) :
    jsStringToNum (natToString n) = some ((n : ℕ) : ℚ) := by
  rcases Nat.eq_zero_or_pos n with rfl | hn
  · rfl
  · unfold jsStringToNum
    rw [jsTrimList_eq_self_of_digits _ (natToString_all_digits n)]
    rw [if_neg (by
      intro h
      exact natToString_ne_empty n (congrArg String.mk h))]
    rw [if_pos (by
      rw [List.all_eq_true]
      exact natToString_all_digits n)]
    congr 1
    rw [natToString_data_digits n hn,
      digitsToNat_reverse_map _ (fun d hd => Nat.digits_lt_base (by omega) hd),
      Nat.ofDigits_digits]


theorem jsEqId_str_natToString_eq_num (m n : ℕ) :
    jsEqId (.num ((m : ℕ) : ℚ)) (.str (natToString n)) =
      jsEqId (.num ((m : ℕ) : ℚ)) (.num ((n : ℕ) : ℚ)) := by
  show (match jsStringToNum (natToString n) with
        | some q => decide (((m : ℕ) : ℚ) = q)
        | none => false) = decide (((m : ℕ) : ℚ) = ((n : ℕ) : ℚ))
  rw [jsStringToNum_natToString]

theorem findIdx?_pred_congr {α : Type} (p q : α → Bool) :
    ∀ (l : List α) (i0 : Nat), (∀ x ∈ l, p x = q x) →
      List.findIdx? p l i0 = List.findIdx? q l i0
  | [], _, _ => rfl
  | x :: xs, i0, h => by
    rw [List.findIdx?_cons, List.findIdx?_cons, h x (List.mem_cons_self x xs),
      findIdx?_pred_congr p q xs (i0 + 1) (fun y hy => h y (List.mem_cons_of_mem x hy))]

theorem find?_pred_congr {α : Type} (p q : α → Bool) :
    ∀ (l : List α), (∀ x ∈ l, p x = q x) → l.find? p = l.find? q
  | [], _ => rfl
  | x :: xs, h => by
    by_cases hx : p x = true
    · rw [List.find?_cons_of_pos _ hx, List.find?_cons_of_pos _ (by rw [← h x (List.mem_cons_self x xs)]; exact hx)]
    · rw [List.find?_cons_of_neg _ hx, List.find?_cons_of_neg _ (by rw [← h x (List.mem_cons_self x xs)]; exact hx),
        find?_pred_congr p q xs (fun y hy => h y (List.mem_cons_of_mem x hy))]

theorem any_pred_congr {α : Type} (p q : α → Bool) :
    ∀ (l : List α), (∀ x ∈ l, p x = q x) → l.any p = l.any q
  | [], _ => rfl
  | x :: xs, h => by
    rw [List.any_cons, List.any_cons, h x (List.mem_cons_self x xs),
      any_pred_congr p q xs (fun y hy => h y (List.mem_cons_of_mem x hy))]

/-- C10 (amended): for every state whose stored relation ids are natural
numbers and every positive n, the loose-equality lookup finds the same
relation for the decimal string of n as for the number n, and opcodes 302
and 303 return identical results and states for both representations;
opcode 301's edit path succeeds identically and produces the same state up
to the representation of the edited entry's stored id (the handler stores
the id value as supplied, so a string-id edit stores the string).  The
positivity restriction is forced by the counterexample: id 0 is falsy as a
number but its decimal string "0" is truthy. -/
theorem c10_amended_numeric_and_string_ids_agree (st : SystemState) (engine : Engine)
    (n : ℕ) (hn : 0 < n)
    (hids : ∀ r ∈ st.relationDefinitions, ∃ m : ℕ, r.id = JsId.num ((m : ℕ) : ℚ)) :
    (st.relationDefinitions.findIdx? (fun r => jsEqId r.id (.str (natToString n))) =
      st.relationDefinitions.findIdx? (fun r => jsEqId r.id (.num ((n : ℕ) : ℚ)))) ∧
    op302 { id := some (.str (natToString n)) } (some st) =
      op302 { id := some (.num ((n : ℕ) : ℚ)) } (some st) ∧
    (∀ tA tB : String,
      op303 engine { tokenA := tA, tokenB := tB, relationId := some (.str (natToString n)) }
          (some st) =
        op303 engine { tokenA := tA, tokenB := tB, relationId := some (.num ((n : ℕ) : ℚ)) }
          (some st)) ∧
    (∀ (nm defnStr : String) (now : ℕ),
      ((op301 engine now
          { id := some (.str (natToString n)), name := nm, definition := defnStr }
          (some st)).1.success =
        (op301 engine now
          { id := some (.num ((n : ℕ) : ℚ)), name := nm, definition := defnStr }
          (some st)).1.success) ∧
      stripIds (op301 engine now
          { id := some (.str (natToString n)), name := nm, definition := defnStr }
          (some st)).2 =
        stripIds (op301 engine now
          { id := some (.num ((n : ℕ) : ℚ)), name := nm, definition := defnStr }
          (some st)).2) := by
  have hpt : ∀ r ∈ st.relationDefinitions,
      jsEqId r.id (.str (natToString n)) = jsEqId r.id (.num ((n : ℕ) : ℚ)) := by
    intro r hr
    obtain ⟨m, hm⟩ := hids r hr
    rw [hm]
    exact jsEqId_str_natToString_eq_num m n
  have hfind := findIdx?_pred_congr _ _ st.relationDefinitions 0 hpt
  have hfindq := find?_pred_congr _ _ st.relationDefinitions hpt
  have hts : jsTruthyId (.str (natToString n)) = true := by
    simp [jsTruthyId, natToString_ne_empty n]
  have htn : jsTruthyId (.num ((n : ℕ) : ℚ)) = true := by
    simp only [jsTruthyId, decide_eq_true_eq, ne_eq]
    exact_mod_cast Nat.pos_iff_ne_zero.mp hn
  refine ⟨hfind, ?_, ?_, ?_⟩
  · simp only [op302, hts, htn, Bool.true_eq_false, if_false, hfind]
  · intro tA tB
    simp only [op303, hts, htn, Bool.true_eq_false, if_false, hfindq]
  · intro nm defnStr now
    simp only [op301, hts, htn, if_true]
    by_cases h1 : normalizeName nm = ""
    · simp [if_pos h1]
    by_cases h2 : jsTrim defnStr = ""
    · simp [if_neg h1, if_pos h2]
    cases he : engine (jsTrim defnStr) with
    | error e => simp [if_neg h1, if_neg h2, he]
    | ok f =>
    simp only [if_neg h1, if_neg h2, he, Option.isSome_some, if_true, hfind]
    have hany := any_pred_congr
      (fun r => r.name = normalizeName nm && !(jsEqId r.id (.str (natToString n))))
      (fun r => r.name = normalizeName nm && !(jsEqId r.id (.num ((n : ℕ) : ℚ))))
      st.relationDefinitions
      (fun r hr => by simp only [hpt r hr])
    rw [hany]
    cases hidx : st.relationDefinitions.findIdx?
        (fun r => jsEqId r.id (.num ((n : ℕ) : ℚ))) with
    | none => exact ⟨rfl, rfl⟩
    | some i =>
      cases hdup : st.relationDefinitions.any
          (fun r => r.name = normalizeName nm && !(jsEqId r.id (.num ((n : ℕ) : ℚ)))) with
      | true => exact ⟨rfl, rfl⟩
      | false =>
        refine ⟨rfl, ?_⟩
        simp [stripIds, List.map_set]


/-- C10 (counterexample): the claim as stated fails at a stored id 0: the
truthiness guard `if (!id)` rejects the numeric id 0 before any lookup,
while the decimal string "0" is truthy and the deletion succeeds. -/
theorem c10_counterexample_id_zero :
    (op302 { id := some (.num 0) } (some c10State)).1.success = false ∧
    (op302 { id := some (.str (natToString 0)) } (some c10State)).1.success = true := by
  refine ⟨by decide, by decide⟩

/-- C10 (witness): the amended theorem's opcode-302 agreement at n = 1 on a
state with one numeric id. -/
theorem c10_amended_witness :
    op302 { id := some (.str (natToString 1)) } (some c10WitnessState) =
      op302 { id := some (.num ((1 : ℕ) : ℚ)) } (some c10WitnessState) :=
  (c10_amended_numeric_and_string_ids_agree c10WitnessState builtinEngine 1 (by decide)
    (by
      intro r hr
      rw [show c10WitnessState.relationDefinitions =
        [{ id := .num 1, name := "R", definition := "return tokenA === tokenB;" }] from rfl] at hr
      obtain rfl := List.mem_singleton.mp hr
      exact ⟨1, by rw [Nat.cast_one]⟩)).2.1

end TokenRelationSystem
